import Mathlib

/-!
Verification of the reservation and pricing engine of the booking-api
repository (seat bookings and whole-bus hirings).

Conventions of the embedding:
* JavaScript numbers (amounts of money, millisecond timestamps, durations)
  are modelled as rationals `ℚ`.
* `Math.round x` in JavaScript rounds half toward positive infinity, which
  is `⌊x + 1/2⌋`; `Math.ceil` is `⌈x⌉`.
* Mongoose documents are modelled as Lean structures holding exactly the
  fields the translated methods read or write; statuses that the code
  compares as strings are modelled as inductive types or as `String`
  where the code ranges over arbitrary strings (payment status, policy
  names, rate types).
* Each controller endpoint or model method is translated as a pure
  function; `Option` models the early error returns (a `none` result is a
  rejected request, a `some` result is the persisted outcome).
-/

/-- JavaScript `Math.round`: rounds half toward positive infinity. -/
def jsRound (q : ℚ) : ℤ := ⌊q + 1/2⌋

/-- JavaScript `Math.round(x * 100) / 100` (round to 2 decimal places). -/
def round2 (q : ℚ) : ℚ := (jsRound (q * 100) : ℚ) / 100

/-- Statuses of a seat booking (src/models/Booking.js, `status` enum). -/
inductive BookingStatus
  | pending
  | confirmed
  | cancelled
  | completed
  | noShow
  | refunded
deriving DecidableEq, Repr, Fintype

/-- Statuses of a bus hiring.  The schema enum in src/models/Hiring.js lists
Pending, Confirmed, Cancelled, In Progress, Completed, Refunded; the hiring
controller additionally uses Approved and Rejected, so both appear here. -/
inductive HiringStatus
  | pending
  | approved
  | confirmed
  | cancelled
  | inProgress
  | completed
  | rejected
  | refunded
deriving DecidableEq, Repr, Fintype

/-- Status of one payment ledger entry (src/models/Hiring.js, `payments`
sub-schema). -/
inductive PaymentEntryStatus
  | pending
  | completed
  | failed
  | refunded
deriving DecidableEq, Repr

/-- One signed payment ledger entry: positive amounts are charges, negative
amounts are refunds (src/models/Hiring.js `payments` array). -/
structure PaymentEntry where
  amount : ℚ
  status : PaymentEntryStatus
deriving DecidableEq, Repr

/-- Sum of the `Completed` entries of a ledger, as the fold
`payments.reduce((sum, p) => p.status === 'Completed' ? sum + p.amount : sum, 0)`
used by the `totalPaid` virtual and by `handleCancellation` and
`processPayment` in src/models/Hiring.js. -/
def completedSum (ps : List PaymentEntry) : ℚ :=
  ps.foldl (fun s p => if p.status = PaymentEntryStatus.completed then s + p.amount else s) 0

/-- Sum of all entries regardless of status, as the fold
`payments.reduce((sum, p) => sum + p.amount, 0)` used inline by
src/controllers/bookingController.js (processPayment, cancelBooking). -/
def allEntriesSum (ps : List PaymentEntry) : ℚ :=
  ps.foldl (fun s p => s + p.amount) 0

/-- The `remainingBalance` virtual of src/models/Hiring.js:
`Math.max(0, totalCost - totalPaid)`. -/
def remainingBalance (totalCost : ℚ) (ps : List PaymentEntry) : ℚ :=
  max 0 (totalCost - completedSum ps)

/-- Refund fraction applied by `handleCancellation` in src/models/Booking.js
as a function of the hours remaining until departure. -/
def bookingRefundPercentage (hoursToDeparture : ℚ) : ℚ :=
  if 72 < hoursToDeparture then 1
  else if 48 < hoursToDeparture then 3/4
  else if 24 < hoursToDeparture then 1/2
  else if 12 < hoursToDeparture then 1/4
  else 0

/-- Refund fraction applied by `handleCancellation` in src/models/Hiring.js as
a function of the cancellation policy name and the days remaining until the
start date.  An unknown policy name yields 0. -/
def hiringRefundPercentage (policy : String) (daysToDeparture : ℚ) : ℚ :=
  if policy = "Standard" then
    if 14 < daysToDeparture then 9/10
    else if 7 < daysToDeparture then 3/4
    else if 3 < daysToDeparture then 1/2
    else if 1 < daysToDeparture then 1/4
    else 0
  else if policy = "Flexible" then
    if 7 < daysToDeparture then 1
    else if 3 < daysToDeparture then 4/5
    else if 1 < daysToDeparture then 1/2
    else 0
  else if policy = "Strict" then
    if 30 < daysToDeparture then 3/4
    else if 14 < daysToDeparture then 1/2
    else if 7 < daysToDeparture then 1/4
    else 0
  else 0

/-- Refund fraction computed inline by `cancelBooking` in
src/controllers/bookingController.js: a refund is computed only when the
payment status is Paid or Partially Paid; the tiers are 100 percent above 72
hours, 75 percent above 48, 50 percent above 24, and below that 50 percent
when an admin cancels and 0 otherwise. -/
def cancelBookingRefundPercentage (hoursToDepature : ℚ) (isAdmin : Bool)
    (paymentStatus : String) : ℚ :=
  if paymentStatus = "Paid" ∨ paymentStatus = "Partially Paid" then
    if 72 < hoursToDepature then 1
    else if 48 < hoursToDepature then 3/4
    else if 24 < hoursToDepature then 1/2
    else if isAdmin then 1/2
    else 0
  else 0

/-- Permission gate of `cancelBooking` in
src/controllers/bookingController.js: already cancelled or completed bookings
cannot be cancelled, and below 24 hours to departure only an admin may
cancel. -/
def cancelBookingAllowed (current : BookingStatus) (hoursToDepature : ℚ)
    (isAdmin : Bool) : Prop :=
  current ≠ BookingStatus.cancelled ∧ current ≠ BookingStatus.completed ∧
    (¬ hoursToDepature < 24 ∨ isAdmin = true)

instance (c : BookingStatus) (h : ℚ) (a : Bool) :
    Decidable (cancelBookingAllowed c h a) := by
  unfold cancelBookingAllowed
  infer_instance

/-- A hiring document (src/models/Hiring.js), restricted to the fields read
or written by the translated methods `calculateTotalCost`, `processPayment`
and `handleCancellation`.  Dates are millisecond timestamps.
`additionalCharges` keeps only the amounts (the descriptions are never read
by the pricing code). -/
structure Hiring where
  status : HiringStatus
  paymentStatus : String
  payments : List PaymentEntry
  totalCost : ℚ
  deposit : ℚ
  cancellationPolicy : String
  startDate : ℚ
  endDate : ℚ
  baseRate : ℚ
  rateType : String
  estimatedDistance : ℚ
  driverAllowance : ℚ
  overtimeRate : ℚ
  additionalCharges : List ℚ
  isRoundTrip : Bool
deriving DecidableEq, Repr

/-- The method `calculateTotalCost` of src/models/Hiring.js: base cost by
rate type (the `switch` statement, whose `default` branch repeats the
Per Day computation), plus driver allowance when positive, plus overtime
above `ceil(days) * 8` standard hours when an overtime rate is set, plus
all additional charges, times 0.9 for round trips, rounded to 2 decimals. -/
def Hiring.calculateTotalCost (h : Hiring) : ℚ :=
  let durationInMs := h.endDate - h.startDate
  let durationInHours := durationInMs / (1000 * 60 * 60)
  let durationInDays := durationInHours / 24
  let base :=
    if h.rateType = "Per Day" then h.baseRate * (⌈durationInDays⌉ : ℚ)
    else if h.rateType = "Per Hour" then h.baseRate * (⌈durationInHours⌉ : ℚ)
    else if h.rateType = "Per Kilometer" then h.baseRate * h.estimatedDistance
    else if h.rateType = "Fixed" then h.baseRate
    else h.baseRate * (⌈durationInDays⌉ : ℚ)
  let withAllowance := if 0 < h.driverAllowance then base + h.driverAllowance else base
  let totalStandardHours := (⌈durationInDays⌉ : ℚ) * 8
  let withOvertime :=
    if totalStandardHours < durationInHours ∧ 0 < h.overtimeRate then
      withAllowance + (durationInHours - totalStandardHours) * h.overtimeRate
    else withAllowance
  let withCharges := withOvertime + h.additionalCharges.sum
  let discounted := if h.isRoundTrip then withCharges * (9/10) else withCharges
  round2 discounted

/-- The method `processPayment` of src/models/Hiring.js: a non-positive
amount is rejected; otherwise a Completed entry is appended, the payment
status is recomputed from the Completed sum against `totalCost`, and a
Pending hiring whose Completed sum reaches the deposit is auto-confirmed. -/
def Hiring.processPayment (h : Hiring) (amount : ℚ) : Option Hiring :=
  if amount ≤ 0 then none
  else
    let payments := h.payments ++ [⟨amount, PaymentEntryStatus.completed⟩]
    let totalPaid := completedSum payments
    let paymentStatus :=
      if h.totalCost ≤ totalPaid then "Paid"
      else if 0 < totalPaid then "Partially Paid"
      else "Pending"
    let status :=
      if h.deposit ≤ totalPaid ∧ h.status = HiringStatus.pending then HiringStatus.confirmed
      else h.status
    some { h with payments := payments, paymentStatus := paymentStatus, status := status }

/-- Result record returned by the cancellation handlers. -/
structure CancellationResult where
  refundAmount : ℚ
  refundPercentage : ℚ
deriving DecidableEq, Repr

/-- The method `handleCancellation` of src/models/Hiring.js at clock time
`now`: the refund percentage comes from the policy table over
`(startDate - now)` in days; the refund amount is the rounded product with
the Completed sum; when positive, a negative Completed entry is appended
and the payment status becomes Refunded or Partially Refunded. -/
def Hiring.handleCancellation (h : Hiring) (now : ℚ) : Hiring × CancellationResult :=
  let daysToDeparture := (h.startDate - now) / (1000 * 60 * 60 * 24)
  let refundPercentage := hiringRefundPercentage h.cancellationPolicy daysToDeparture
  let totalPaid := completedSum h.payments
  let refundAmount := round2 (totalPaid * refundPercentage)
  if 0 < refundAmount then
    ({ h with
        payments := h.payments ++ [⟨-refundAmount, PaymentEntryStatus.completed⟩],
        paymentStatus := if totalPaid ≤ refundAmount then "Refunded" else "Partially Refunded" },
     ⟨refundAmount, refundPercentage⟩)
  else (h, ⟨refundAmount, refundPercentage⟩)

/-- The endpoint `cancelHiring` of src/controllers/hiringController.js at
clock time `now`: already cancelled, completed or rejected hirings cannot be
cancelled; below one day to start only an admin may cancel; otherwise the
refund is processed by `Hiring.handleCancellation` (with no dependence on
the actor) and the status becomes Cancelled. -/
def HiringController.cancelHiring (h : Hiring) (now : ℚ) (isAdmin : Bool) :
    Option (Hiring × CancellationResult) :=
  if h.status = HiringStatus.cancelled then none
  else if h.status = HiringStatus.completed ∨ h.status = HiringStatus.rejected then none
  else if (h.startDate - now) / (1000 * 60 * 60 * 24) < 1 ∧ isAdmin = false then none
  else
    some ({ (h.handleCancellation now).1 with status := HiringStatus.cancelled },
      (h.handleCancellation now).2)

/-- Status outcome of the endpoint `updateBookingStatus` of
src/controllers/bookingController.js: the target must be one of the five
accepted strings (Refunded is not one of them); a Cancelled or Completed
booking rejects any change to a different status; every other request sets
the target status. -/
def BookingController.updateBookingStatus (current target : BookingStatus) :
    Option BookingStatus :=
  if ¬ target ∈ [BookingStatus.pending, BookingStatus.confirmed, BookingStatus.cancelled,
      BookingStatus.completed, BookingStatus.noShow] then none
  else if current = BookingStatus.cancelled ∧ target ≠ BookingStatus.cancelled then none
  else if current = BookingStatus.completed ∧ target ≠ BookingStatus.completed then none
  else some target

/-- Status outcome of the endpoint `updateHiringStatus` of
src/controllers/hiringController.js: the target must be one of the seven
accepted strings (Refunded is not one of them); a Cancelled, Completed or
Rejected hiring rejects any change; every other request sets the target
status. -/
def HiringController.updateHiringStatus (current target : HiringStatus) :
    Option HiringStatus :=
  if ¬ target ∈ [HiringStatus.pending, HiringStatus.approved, HiringStatus.confirmed,
      HiringStatus.inProgress, HiringStatus.completed, HiringStatus.cancelled,
      HiringStatus.rejected] then none
  else if current = HiringStatus.cancelled ∨ current = HiringStatus.completed
      ∨ current = HiringStatus.rejected then none
  else some target

/-- The overlap predicate of spec section 4.1, written from the spec words:
two windows conflict iff `s1 <= e2` and `s2 <= e1` (inclusive boundaries).
This is the reference definition a conflict check is compared against. -/
def overlaps (s1 e1 s2 e2 : ℚ) : Prop := s1 ≤ e2 ∧ s2 ≤ e1

instance (s1 e1 s2 e2 : ℚ) : Decidable (overlaps s1 e1 s2 e2) := by
  unfold overlaps
  infer_instance

/-- The per-existing-hiring condition of the conflict query inside the
method `checkBusAvailability` of src/models/Hiring.js (the `$or` over the
existing startDate or endDate falling inside the candidate window);
`(s1, e1)` is the existing hiring's window and `(s2, e2)` the candidate
window.  There is no containment disjunct here. -/
def Hiring.checkBusAvailabilityHiringConflict (s1 e1 s2 e2 : ℚ) : Prop :=
  (s1 ≤ e2 ∧ s2 ≤ s1) ∨ (e1 ≤ e2 ∧ s2 ≤ e1)

instance (s1 e1 s2 e2 : ℚ) :
    Decidable (Hiring.checkBusAvailabilityHiringConflict s1 e1 s2 e2) := by
  unfold Hiring.checkBusAvailabilityHiringConflict
  infer_instance

/-- The per-existing-hiring condition of the conflict query inside the
endpoint `createHiring` of src/controllers/hiringController.js: the existing
start falls in the candidate window, or the existing end does, or the
existing window surrounds the candidate. -/
def HiringController.createHiringConflict (s1 e1 s2 e2 : ℚ) : Prop :=
  (s2 ≤ s1 ∧ s1 ≤ e2) ∨ (s2 ≤ e1 ∧ e1 ≤ e2) ∨ (s1 ≤ s2 ∧ e2 ≤ e1)

instance (s1 e1 s2 e2 : ℚ) :
    Decidable (HiringController.createHiringConflict s1 e1 s2 e2) := by
  unfold HiringController.createHiringConflict
  infer_instance

/-- A stored seat booking as read by the conflict queries: its bus, its
departure instant, its optional return instant and its status. -/
structure BookingRec where
  bus : ℕ
  departureDate : ℚ
  returnDate : Option ℚ
  status : BookingStatus
deriving DecidableEq, Repr

/-- A stored hiring as read by the conflict queries: its bus, its window
and its status. -/
structure HiringRec where
  bus : ℕ
  startDate : ℚ
  endDate : ℚ
  status : HiringStatus
deriving DecidableEq, Repr

/-- The availability check run by the endpoint `createBooking` of
src/controllers/bookingController.js for a requested instant `dt` on bus
`bus`: it queries ONLY the Booking collection, for Pending or Confirmed
bookings whose departureDate or returnDate EQUALS `dt` exactly.  The Hiring
collection is never consulted by this endpoint. -/
def BookingController.createBookingConflict (bookings : List BookingRec) (bus : ℕ)
    (dt : ℚ) : Prop :=
  ∃ bk ∈ bookings, bk.bus = bus
    ∧ (bk.departureDate = dt ∨ bk.returnDate = some dt)
    ∧ (bk.status = BookingStatus.pending ∨ bk.status = BookingStatus.confirmed)

instance (bookings : List BookingRec) (bus : ℕ) (dt : ℚ) :
    Decidable (BookingController.createBookingConflict bookings bus dt) := by
  unfold BookingController.createBookingConflict
  infer_instance

/-- The availability check run by the endpoint `createHiring` of
src/controllers/hiringController.js for a candidate window `(s, e)` on bus
`bus`: it queries ONLY the Hiring collection, for Pending, Approved or
Confirmed hirings (In Progress hirings do not block) matching the window
condition.  The Booking collection is never consulted by this endpoint. -/
def HiringController.createHiringCheck (hirings : List HiringRec) (bus : ℕ)
    (s e : ℚ) : Prop :=
  ∃ hr ∈ hirings, hr.bus = bus
    ∧ HiringController.createHiringConflict hr.startDate hr.endDate s e
    ∧ (hr.status = HiringStatus.pending ∨ hr.status = HiringStatus.approved
        ∨ hr.status = HiringStatus.confirmed)

instance (hirings : List HiringRec) (bus : ℕ) (s e : ℚ) :
    Decidable (HiringController.createHiringCheck hirings bus s e) := by
  unfold HiringController.createHiringCheck
  infer_instance

/-- A route document (src/models/Route.js section of src/models/Booking.js),
restricted to the pricing fields read by `calculateFare`. -/
structure Route where
  baseFare : ℚ
  peakTimeMultiplier : ℚ
  weekendMultiplier : ℚ
  holidayMultiplier : ℚ
  seasonalMultiplier : ℚ
  childrenDiscount : ℚ
  seniorDiscount : ℚ
deriving DecidableEq, Repr

/-- The option flags passed to `calculateFare`.  `stopFare` is the fare of
the requested stop point when one is given and carries a fare; the booking
flow passes no `date`, so the flags are taken as given. -/
structure FareOptions where
  isChild : Bool
  isSenior : Bool
  isPeakTime : Bool
  isWeekend : Bool
  isHoliday : Bool
  isSeasonal : Bool
  stopFare : Option ℚ
deriving DecidableEq, Repr

/-- The `total` field of the method `calculateFare` of the Route model:
start from the base (or stop-point) fare, multiply by each applicable
multiplier, apply the child and senior discounts multiplicatively, and
round to 2 decimals. -/
def Route.calculateFareTotal (r : Route) (o : FareOptions) : ℚ :=
  let fare := match o.stopFare with
    | some f => f
    | none => r.baseFare
  let fare := if o.isPeakTime then fare * r.peakTimeMultiplier else fare
  let fare := if o.isWeekend then fare * r.weekendMultiplier else fare
  let fare := if o.isHoliday then fare * r.holidayMultiplier else fare
  let fare := if o.isSeasonal then fare * r.seasonalMultiplier else fare
  let fare := if o.isChild then fare * (1 - r.childrenDiscount) else fare
  let fare := if o.isSenior then fare * (1 - r.seniorDiscount) else fare
  round2 fare

/-- Fare computed inline by the endpoint `createBooking` of
src/controllers/bookingController.js, before the final rounding: the base
fare times the passenger count, times 1.8 for a round trip (the source
comment reads: 10 percent discount for round trip, x2 - 20 percent), then
times 0.9 when the promo code WELCOME10 is supplied.  No peak, weekend,
holiday or seasonal multiplier is applied on this path. -/
def BookingController.createBookingTotalFareRaw (baseFare : ℚ) (numPassengers : ℕ)
    (bookingType : String) (promoCode : Option String) : ℚ :=
  let totalFare := baseFare * numPassengers
  let totalFare := if bookingType = "Round-Trip" then totalFare * (9/5) else totalFare
  match promoCode with
  | some c => if c = "WELCOME10" then totalFare * (9/10) else totalFare
  | none => totalFare

/-- The persisted `totalFare` of the endpoint `createBooking`: the raw fare
rounded to 2 decimals. -/
def BookingController.createBookingTotalFare (baseFare : ℚ) (numPassengers : ℕ)
    (bookingType : String) (promoCode : Option String) : ℚ :=
  round2 (BookingController.createBookingTotalFareRaw baseFare numPassengers bookingType promoCode)

/-- Concrete hiring used to exercise `calculateTotalCost` with a rate type
outside the configured enum: a 2-day window at base rate 500 under the
unknown rate type Hourly. -/
def unknownRateHiring : Hiring :=
  { status := HiringStatus.pending
    paymentStatus := "Pending"
    payments := []
    totalCost := 0
    deposit := 0
    cancellationPolicy := "Standard"
    startDate := 0
    endDate := 172800000
    baseRate := 500
    rateType := "Hourly"
    estimatedDistance := 0
    driverAllowance := 0
    overtimeRate := 0
    additionalCharges := []
    isRoundTrip := false }

/-- Concrete hiring with an empty ledger, total cost 100, the default
deposit 0, the Flexible policy and a start 10 days (864000000 ms) after
epoch, used as a witness input for the payment and cancellation claims. -/
def freshHiring : Hiring :=
  { status := HiringStatus.pending
    paymentStatus := "Pending"
    payments := []
    totalCost := 100
    deposit := 0
    cancellationPolicy := "Flexible"
    startDate := 864000000
    endDate := 950400000
    baseRate := 0
    rateType := "Fixed"
    estimatedDistance := 0
    driverAllowance := 0
    overtimeRate := 0
    additionalCharges := []
    isRoundTrip := false }

/-- The state of `freshHiring` after a completed payment of its full total
cost 100: one Completed charge, payment status Paid, auto-confirmed. -/
def paidHiring : Hiring :=
  { freshHiring with
      payments := [⟨100, PaymentEntryStatus.completed⟩]
      paymentStatus := "Paid"
      status := HiringStatus.confirmed }

-- Helper lemmas about the ledger folds.

lemma completedSum_foldl (ps : List PaymentEntry) (s : ℚ) :
    ps.foldl (fun s p => if p.status = PaymentEntryStatus.completed then s + p.amount else s) s
      = s + completedSum ps := by
  induction ps generalizing s with
  | nil => simp [completedSum]
  | cons p ps ih =>
    simp only [completedSum, List.foldl_cons] at *
    rw [ih, ih (if p.status = PaymentEntryStatus.completed then 0 + p.amount else 0)]
    by_cases h : p.status = PaymentEntryStatus.completed
    · simp [h]
      ring
    · simp [h]

lemma allEntriesSum_foldl (ps : List PaymentEntry) (s : ℚ) :
    ps.foldl (fun s p => s + p.amount) s = s + allEntriesSum ps := by
  induction ps generalizing s with
  | nil => simp [allEntriesSum]
  | cons p ps ih =>
    simp only [allEntriesSum, List.foldl_cons] at *
    rw [ih, ih (0 + p.amount)]
    ring

lemma completedSum_cons (p : PaymentEntry) (ps : List PaymentEntry) :
    completedSum (p :: ps)
      = (if p.status = PaymentEntryStatus.completed then p.amount else 0) + completedSum ps := by
  have h1 : completedSum (p :: ps)
      = List.foldl (fun s q => if q.status = PaymentEntryStatus.completed then s + q.amount else s)
          (if p.status = PaymentEntryStatus.completed then 0 + p.amount else 0) ps := rfl
  rw [h1, completedSum_foldl]
  by_cases h : p.status = PaymentEntryStatus.completed <;> simp [h]

lemma allEntriesSum_cons (p : PaymentEntry) (ps : List PaymentEntry) :
    allEntriesSum (p :: ps) = p.amount + allEntriesSum ps := by
  have h1 : allEntriesSum (p :: ps)
      = List.foldl (fun s q => s + q.amount) (0 + p.amount) ps := rfl
  rw [h1, allEntriesSum_foldl]
  ring

lemma completedSum_append_single (ps : List PaymentEntry) (p : PaymentEntry) :
    completedSum (ps ++ [p])
      = completedSum ps + (if p.status = PaymentEntryStatus.completed then p.amount else 0) := by
  have h1 : completedSum (ps ++ [p])
      = if p.status = PaymentEntryStatus.completed then completedSum ps + p.amount
        else completedSum ps := by
    unfold completedSum
    rw [List.foldl_append]
    rfl
  rw [h1]
  by_cases h : p.status = PaymentEntryStatus.completed <;> simp [h]

lemma completedSum_eq_filter_sum (ps : List PaymentEntry) :
    completedSum ps
      = ((ps.filter fun p => p.status = PaymentEntryStatus.completed).map PaymentEntry.amount).sum := by
  induction ps with
  | nil => simp [completedSum]
  | cons p ps ih =>
    rw [completedSum_cons, ih]
    by_cases h : p.status = PaymentEntryStatus.completed <;> simp [h, List.filter_cons]

lemma allEntriesSum_eq_completedSum (ps : List PaymentEntry)
    (hall : ∀ p ∈ ps, p.status = PaymentEntryStatus.completed) :
    allEntriesSum ps = completedSum ps := by
  induction ps with
  | nil => simp [allEntriesSum, completedSum]
  | cons p ps ih =>
    rw [allEntriesSum_cons, completedSum_cons]
    have hp : p.status = PaymentEntryStatus.completed := hall p (by simp)
    rw [ih (fun q hq => hall q (by simp [hq])), hp]
    simp

/-- claim C5: for every payment ledger, `totalPaid` is the sum of the signed
amounts of exactly the Completed entries, `remainingBalance` equals
`max 0 (total - totalPaid)` and is therefore never negative; in addition, on
any ledger all of whose entries are Completed (which is the case for every
ledger the booking controller builds), the unfiltered fold it uses agrees
with the filtered one. -/
theorem totalPaid_remainingBalance_spec (ps : List PaymentEntry) (total : ℚ) :
    completedSum ps
        = ((ps.filter fun p => p.status = PaymentEntryStatus.completed).map PaymentEntry.amount).sum
      ∧ remainingBalance total ps = max 0 (total - completedSum ps)
      ∧ 0 ≤ remainingBalance total ps
      ∧ ((∀ p ∈ ps, p.status = PaymentEntryStatus.completed) → allEntriesSum ps = completedSum ps) := by
  exact ⟨completedSum_eq_filter_sum ps, rfl, le_max_left 0 _,
    allEntriesSum_eq_completedSum ps⟩

/-- Witness for claim C5 at a concrete one-entry ledger, discharging the
all-entries-Completed hypothesis of the final conjunct. -/
theorem totalPaid_remainingBalance_spec_witness :
    allEntriesSum [⟨(150 : ℚ), PaymentEntryStatus.completed⟩]
      = completedSum [⟨(150 : ℚ), PaymentEntryStatus.completed⟩] :=
  (totalPaid_remainingBalance_spec [⟨(150 : ℚ), PaymentEntryStatus.completed⟩] 0).2.2.2
    (by decide)

/-- claim C3 counterexample: an admin cancelling a paid seat booking 10
hours before departure is allowed by the cancel endpoint, and the endpoint
applies a 50 percent refund fraction where the claimed table (the fraction
the model method `handleCancellation` would apply) prescribes 0 for a
cancellation at most 12 hours before departure. -/
theorem cancelBooking_below12_admin_counterexample :
    cancelBookingAllowed BookingStatus.confirmed 10 true
      ∧ cancelBookingRefundPercentage 10 true "Paid" = 1/2
      ∧ bookingRefundPercentage 10 = 0
      ∧ cancelBookingRefundPercentage 10 true "Paid" ≠ bookingRefundPercentage 10 := by
  refine ⟨⟨by decide, by decide, Or.inr rfl⟩, ?_, ?_, ?_⟩ <;>
    norm_num [cancelBookingRefundPercentage, bookingRefundPercentage]

/-- claim C3 (amended): the refund fraction applied by the model method
`handleCancellation` of src/models/Booking.js is 1.0 above 72 hours, 0.75 in
(48, 72], 0.5 in (24, 48], 0.25 in (12, 24] and 0 at or below 12 hours; the
cancel endpoint of the booking controller, however, uses its own table with
no 0.25 tier and an admin-only 0.5 tier below 24 hours. -/
theorem bookingRefundPercentage_tiers (t : ℚ) :
    (72 < t → bookingRefundPercentage t = 1)
      ∧ (48 < t ∧ t ≤ 72 → bookingRefundPercentage t = 3/4)
      ∧ (24 < t ∧ t ≤ 48 → bookingRefundPercentage t = 1/2)
      ∧ (12 < t ∧ t ≤ 24 → bookingRefundPercentage t = 1/4)
      ∧ (t ≤ 12 → bookingRefundPercentage t = 0) := by
  unfold bookingRefundPercentage
  refine ⟨fun h => ?_, fun h => ?_, fun h => ?_, fun h => ?_, fun h => ?_⟩
  · rw [if_pos h]
  · rw [if_neg (by linarith [h.2]), if_pos h.1]
  · rw [if_neg (by linarith [h.2]), if_neg (by linarith [h.2]), if_pos h.1]
  · rw [if_neg (by linarith [h.2]), if_neg (by linarith [h.2]), if_neg (by linarith [h.2]),
      if_pos h.1]
  · rw [if_neg (by linarith), if_neg (by linarith), if_neg (by linarith), if_neg (by linarith)]

/-- Witness for claim C3 (amended) at one concrete time in each tier. -/
theorem bookingRefundPercentage_tiers_witness :
    bookingRefundPercentage 100 = 1 ∧ bookingRefundPercentage 60 = 3/4
      ∧ bookingRefundPercentage 30 = 1/2 ∧ bookingRefundPercentage 20 = 1/4
      ∧ bookingRefundPercentage 5 = 0 :=
  ⟨(bookingRefundPercentage_tiers 100).1 (by norm_num),
    (bookingRefundPercentage_tiers 60).2.1 ⟨by norm_num, by norm_num⟩,
    (bookingRefundPercentage_tiers 30).2.2.1 ⟨by norm_num, by norm_num⟩,
    (bookingRefundPercentage_tiers 20).2.2.2.1 ⟨by norm_num, by norm_num⟩,
    (bookingRefundPercentage_tiers 5).2.2.2.2 (by norm_num)⟩

/-- claim C6 counterexample: a booking in the terminal state No-Show is
moved to Confirmed by the status endpoint, and a hiring in the terminal
state Refunded is moved back to Pending; neither request fails. -/
theorem terminal_state_escape_counterexample :
    BookingController.updateBookingStatus BookingStatus.noShow BookingStatus.confirmed
        = some BookingStatus.confirmed
      ∧ HiringController.updateHiringStatus HiringStatus.refunded HiringStatus.pending
        = some HiringStatus.pending := by
  refine ⟨?_, ?_⟩ <;> decide

/-- claim C6 (amended): the status endpoints refuse to move a booking out of
Cancelled or Completed and refuse any status change of a hiring that is
Cancelled, Completed or Rejected; the remaining terminal states (No-Show and
Refunded for bookings, Refunded for hirings) are not guarded. -/
theorem terminal_state_guards :
    (∀ current target : BookingStatus,
        (current = BookingStatus.cancelled ∨ current = BookingStatus.completed) →
        target ≠ current →
        BookingController.updateBookingStatus current target = none)
      ∧ (∀ current target : HiringStatus,
          (current = HiringStatus.cancelled ∨ current = HiringStatus.completed
            ∨ current = HiringStatus.rejected) →
          HiringController.updateHiringStatus current target = none) := by
  refine ⟨?_, ?_⟩ <;> decide

/-- Witness for claim C6 (amended): a cancelled booking cannot be confirmed
and a rejected hiring cannot be approved. -/
theorem terminal_state_guards_witness :
    BookingController.updateBookingStatus BookingStatus.cancelled BookingStatus.confirmed = none
      ∧ HiringController.updateHiringStatus HiringStatus.rejected HiringStatus.approved = none :=
  ⟨terminal_state_guards.1 BookingStatus.cancelled BookingStatus.confirmed (Or.inl rfl)
      (by decide),
    terminal_state_guards.2 HiringStatus.rejected HiringStatus.approved
      (Or.inr (Or.inr rfl))⟩

/-- claim C7 counterexample: computing the total cost with the unknown rate
type Hourly does not fail; it silently returns 1000, the very value the
Per Day basis yields for the same hiring. -/
theorem calculateTotalCost_unknown_rate_counterexample :
    Hiring.calculateTotalCost unknownRateHiring = 1000
      ∧ Hiring.calculateTotalCost { unknownRateHiring with rateType := "Per Day" } = 1000 := by
  refine ⟨?_, ?_⟩ <;>
    norm_num [Hiring.calculateTotalCost, unknownRateHiring, round2, jsRound,
      show ("Hourly" : String) ≠ "Per Day" from by decide,
      show ("Hourly" : String) ≠ "Per Hour" from by decide,
      show ("Hourly" : String) ≠ "Per Kilometer" from by decide,
      show ("Hourly" : String) ≠ "Fixed" from by decide]

/-- claim C7 (amended): for every hiring whose rate type is none of Per Day,
Per Hour, Per Kilometer or Fixed, `calculateTotalCost` silently falls back
to the Per Day computation instead of failing with a configuration error. -/
theorem calculateTotalCost_unknown_rate_defaults (h : Hiring)
    (h1 : h.rateType ≠ "Per Day") (h2 : h.rateType ≠ "Per Hour")
    (h3 : h.rateType ≠ "Per Kilometer") (h4 : h.rateType ≠ "Fixed") :
    Hiring.calculateTotalCost h = Hiring.calculateTotalCost { h with rateType := "Per Day" } := by
  unfold Hiring.calculateTotalCost
  simp [h1, h2, h3, h4]

/-- Witness for claim C7 (amended) at the concrete Hourly-rate hiring. -/
theorem calculateTotalCost_unknown_rate_defaults_witness :
    Hiring.calculateTotalCost unknownRateHiring
      = Hiring.calculateTotalCost { unknownRateHiring with rateType := "Per Day" } :=
  calculateTotalCost_unknown_rate_defaults unknownRateHiring (by decide) (by decide)
    (by decide) (by decide)

lemma createHiringConflict_iff (s1 e1 s2 e2 : ℚ) (hw1 : s1 ≤ e1) (hw2 : s2 ≤ e2) :
    HiringController.createHiringConflict s1 e1 s2 e2 ↔ overlaps s1 e1 s2 e2 := by
  unfold HiringController.createHiringConflict overlaps
  constructor
  · rintro (⟨a, b⟩ | ⟨a, b⟩ | ⟨a, b⟩)
    · exact ⟨by linarith, by linarith⟩
    · exact ⟨by linarith, by linarith⟩
    · exact ⟨by linarith, by linarith⟩
  · rintro ⟨a, b⟩
    rcases le_or_lt s2 s1 with hc | hc
    · exact Or.inl ⟨hc, a⟩
    rcases le_or_lt e1 e2 with hd | hd
    · exact Or.inr (Or.inl ⟨b, hd⟩)
    · exact Or.inr (Or.inr ⟨by linarith, by linarith⟩)

/-- claim C2 counterexample: an existing reservation window (0, 10) and a
candidate window (2, 3) overlap under the claimed inclusive predicate (the
existing window contains the candidate), yet the conflict query of the model
method `checkBusAvailability` does not report a conflict for this pair. -/
theorem checkBusAvailability_containment_counterexample :
    overlaps 0 10 2 3 ∧ ¬ Hiring.checkBusAvailabilityHiringConflict 0 10 2 3 := by
  refine ⟨?_, ?_⟩ <;> norm_num [overlaps, Hiring.checkBusAvailabilityHiringConflict]

/-- claim C2 (amended): for well-formed windows the conflict condition of
the createHiring endpoint (start inside, end inside, or containment) is
equivalent to the claimed inclusive predicate `s1 <= e2 AND s2 <= e1`; the
model method `checkBusAvailability`, lacking the containment disjunct,
is not. -/
theorem createHiringConflict_iff_overlaps (s1 e1 s2 e2 : ℚ)
    (hw1 : s1 ≤ e1) (hw2 : s2 ≤ e2) :
    HiringController.createHiringConflict s1 e1 s2 e2 ↔ overlaps s1 e1 s2 e2 :=
  createHiringConflict_iff s1 e1 s2 e2 hw1 hw2

/-- Witness for claim C2 (amended) at the containment pair (0,10) versus
(2,3): the endpoint condition agrees with the inclusive predicate there. -/
theorem createHiringConflict_iff_overlaps_witness :
    HiringController.createHiringConflict 0 10 2 3 ↔ overlaps 0 10 2 3 :=
  createHiringConflict_iff_overlaps 0 10 2 3 (by norm_num) (by norm_num)

/-- claim C1 counterexample: with no stored bookings and one live Confirmed
hiring occupying bus 1 over the window (0, 10), the availability check that
the createBooking endpoint runs for a booking on bus 1 departing at instant
5 finds no conflict (it consults only the Booking collection), although the
requested instant overlaps the live hiring's window under the inclusive
overlap predicate — as the hiring-side check itself would report. -/
theorem cross_kind_overlap_not_rejected_counterexample :
    ¬ BookingController.createBookingConflict [] 1 5
      ∧ HiringController.createHiringCheck [⟨1, 0, 10, HiringStatus.confirmed⟩] 1 5 5
      ∧ overlaps 0 10 5 5 := by
  refine ⟨?_, ?_, ?_⟩
  · simp [BookingController.createBookingConflict]
  · exact ⟨⟨1, 0, 10, HiringStatus.confirmed⟩, by simp, rfl,
      Or.inr (Or.inr ⟨by norm_num, by norm_num⟩), Or.inr (Or.inr rfl)⟩
  · exact ⟨by norm_num, by norm_num⟩

/-- claim C1 (amended): the createHiring endpoint does reject a candidate
hiring window that overlaps (inclusively) the well-formed window of a
stored Pending, Approved or Confirmed hiring on the same bus; the booking
endpoint, by contrast, checks only exact-instant equality among bookings,
and neither creation endpoint consults the other reservation kind, so the
cross-kind no-overlap invariant does not hold. -/
theorem createHiring_rejects_live_hiring_overlap
    (hirings : List HiringRec) (bus : ℕ) (s e : ℚ) (hr : HiringRec)
    (hmem : hr ∈ hirings) (hbus : hr.bus = bus)
    (hlive : hr.status = HiringStatus.pending ∨ hr.status = HiringStatus.approved
      ∨ hr.status = HiringStatus.confirmed)
    (hwf1 : hr.startDate ≤ hr.endDate) (hwf2 : s ≤ e)
    (hov : overlaps hr.startDate hr.endDate s e) :
    HiringController.createHiringCheck hirings bus s e :=
  ⟨hr, hmem, hbus,
    (createHiringConflict_iff hr.startDate hr.endDate s e hwf1 hwf2).mpr hov, hlive⟩

/-- Witness for claim C1 (amended): a pending hiring on bus 2 over (0, 10)
blocks a candidate window (3, 12) on the same bus. -/
theorem createHiring_rejects_live_hiring_overlap_witness :
    HiringController.createHiringCheck [⟨2, 0, 10, HiringStatus.pending⟩] 2 3 12 :=
  createHiring_rejects_live_hiring_overlap [⟨2, 0, 10, HiringStatus.pending⟩] 2 3 12
    ⟨2, 0, 10, HiringStatus.pending⟩ (by simp) rfl (Or.inl rfl)
    (by norm_num) (by norm_num) ⟨by norm_num, by norm_num⟩

/-- claim C4 counterexample: with base fare 100 and one passenger the
createBooking endpoint persists a one-way total of 100 (no weekend or peak
multiplier is applied on this path) and a round-trip total of 180, which is
neither twice the one-way total nor the 240 the claim prescribes. -/
theorem roundTrip_fare_counterexample :
    BookingController.createBookingTotalFare 100 1 "Round-Trip" none = 180
      ∧ BookingController.createBookingTotalFare 100 1 "One-Way" none = 100
      ∧ BookingController.createBookingTotalFare 100 1 "Round-Trip" none
          ≠ 2 * BookingController.createBookingTotalFare 100 1 "One-Way" none
      ∧ BookingController.createBookingTotalFare 100 1 "Round-Trip" none ≠ 240 := by
  refine ⟨?_, ?_, ?_, ?_⟩ <;>
    norm_num [BookingController.createBookingTotalFare,
      BookingController.createBookingTotalFareRaw, round2, jsRound,
      show ("One-Way" : String) ≠ "Round-Trip" from by decide]

/-- claim C4 (amended): on the creation endpoint the round-trip total is 1.8
times the one-way per-passenger sum (a doubling with a built-in 10 percent
round-trip discount), applied before any promo-code discount; the Route
model's per-passenger fare with base 100 and weekend multiplier 1.2 is 120,
but the creation endpoint does not use it, so base fare 100 with one
passenger persists 100 one-way and 180 round-trip. -/
theorem roundTrip_fare_is_1_8_times_oneWay :
    (∀ (base : ℚ) (n : ℕ) (promo : Option String),
        BookingController.createBookingTotalFareRaw base n "Round-Trip" promo
          = (9/5) * BookingController.createBookingTotalFareRaw base n "One-Way" promo)
      ∧ Route.calculateFareTotal ⟨100, 1, 6/5, 6/5, 1, 1/2, 3/10⟩
          ⟨false, false, false, true, false, false, none⟩ = 120
      ∧ BookingController.createBookingTotalFare 100 1 "Round-Trip" none = 180 := by
  refine ⟨?_, ?_, ?_⟩
  · intro base n promo
    cases promo with
    | none =>
      simp only [BookingController.createBookingTotalFareRaw]
      rw [if_pos trivial, if_neg (show ¬ ("One-Way" : String) = "Round-Trip" from by decide)]
      ring
    | some c =>
      simp only [BookingController.createBookingTotalFareRaw]
      rw [if_pos trivial, if_neg (show ¬ ("One-Way" : String) = "Round-Trip" from by decide)]
      by_cases hc : c = "WELCOME10"
      · rw [if_pos hc, if_pos hc]
        ring
      · rw [if_neg hc, if_neg hc]
        ring
  · norm_num [Route.calculateFareTotal, round2, jsRound]
  · norm_num [BookingController.createBookingTotalFare,
      BookingController.createBookingTotalFareRaw, round2, jsRound]

/-- claim C8 counterexample: at exactly 24 hours to departure both the admin
and the regular owner are permitted to cancel a paid Confirmed booking, yet
the cancel endpoint computes a 50 percent refund for the admin and a 0
percent refund for the owner. -/
theorem cancelBooking_actor_dependent_refund_counterexample :
    cancelBookingAllowed BookingStatus.confirmed 24 true
      ∧ cancelBookingAllowed BookingStatus.confirmed 24 false
      ∧ cancelBookingRefundPercentage 24 true "Paid" = 1/2
      ∧ cancelBookingRefundPercentage 24 false "Paid" = 0 := by
  refine ⟨⟨by decide, by decide, Or.inl (by norm_num)⟩,
    ⟨by decide, by decide, Or.inl (by norm_num)⟩, ?_, ?_⟩ <;>
    norm_num [cancelBookingRefundPercentage]

/-- claim C8 (amended): the booking cancel endpoint computes an
actor-independent refund percentage whenever strictly more than 24 hours
remain; at 24 hours or less the admin path applies 50 percent where the
owner path applies 0 (and below 24 hours the owner may not cancel at all).
The hiring cancel endpoint delegates to the model's handleCancellation, so
whenever the owner's cancellation succeeds the admin's cancellation of the
same hiring at the same instant returns the identical outcome. -/
theorem refund_percentage_actor_independent_above24 :
    (∀ (t : ℚ) (ps : String), 24 < t →
        cancelBookingRefundPercentage t true ps = cancelBookingRefundPercentage t false ps)
      ∧ (∀ (h : Hiring) (now : ℚ) (r : Hiring × CancellationResult),
          HiringController.cancelHiring h now false = some r →
          HiringController.cancelHiring h now true = some r) := by
  constructor
  · intro t ps ht
    unfold cancelBookingRefundPercentage
    by_cases hp : ps = "Paid" ∨ ps = "Partially Paid"
    · rw [if_pos hp, if_pos hp]
      by_cases h72 : 72 < t
      · rw [if_pos h72, if_pos h72]
      · rw [if_neg h72, if_neg h72]
        by_cases h48 : 48 < t
        · rw [if_pos h48, if_pos h48]
        · rw [if_neg h48, if_neg h48, if_pos ht, if_pos ht]
    · rw [if_neg hp, if_neg hp]
  · intro h now r hr
    unfold HiringController.cancelHiring at hr ⊢
    by_cases h1 : h.status = HiringStatus.cancelled
    · rw [if_pos h1] at hr
      exact absurd hr (by simp)
    rw [if_neg h1] at hr ⊢
    by_cases h2 : h.status = HiringStatus.completed ∨ h.status = HiringStatus.rejected
    · rw [if_pos h2] at hr
      exact absurd hr (by simp)
    rw [if_neg h2] at hr ⊢
    rw [if_neg (by simp)]
    by_cases h3 : (h.startDate - now) / (1000 * 60 * 60 * 24) < 1 ∧ (false : Bool) = false
    · rw [if_pos h3] at hr
      exact absurd hr (by simp)
    · rw [if_neg h3] at hr
      exact hr

lemma handleCancellation_full_refund (g : Hiring) (now T : ℚ)
    (hsum : completedSum g.payments = T) (hTpos : 0 < T) (hTr : round2 T = T)
    (hpol : hiringRefundPercentage g.cancellationPolicy
        ((g.startDate - now) / (1000 * 60 * 60 * 24)) = 1) :
    completedSum (g.handleCancellation now).1.payments = 0
      ∧ (g.handleCancellation now).1.paymentStatus = "Refunded" := by
  have hres : g.handleCancellation now
      = ({ g with
            payments := g.payments ++ [⟨-T, PaymentEntryStatus.completed⟩]
            paymentStatus := "Refunded" },
          ⟨T, 1⟩) := by
    simp only [Hiring.handleCancellation]
    rw [hpol, hsum, mul_one, hTr, if_pos hTpos, if_pos le_rfl]
  rw [hres]
  constructor
  · simp only
    rw [completedSum_append_single]
    simp [hsum]
  · rfl

/-- claim C9: on a reservation with an empty ledger, two-decimal positive
total T, any status, and a policy and clock granting a 100 percent refund,
applying a completed payment of T through `processPayment` and then a
cancellation through `handleCancellation` leaves the ledger with a Completed
sum of 0 and sets the payment status to Refunded. -/
theorem payment_then_full_refund_roundtrip (h : Hiring) (now T : ℚ)
    (hpay : h.payments = []) (_hT : h.totalCost = T) (hTpos : 0 < T)
    (hTr : round2 T = T)
    (hpol : hiringRefundPercentage h.cancellationPolicy
        ((h.startDate - now) / (1000 * 60 * 60 * 24)) = 1)
    (h₁ : Hiring) (hstep : Hiring.processPayment h T = some h₁) :
    completedSum (h₁.handleCancellation now).1.payments = 0
      ∧ (h₁.handleCancellation now).1.paymentStatus = "Refunded" := by
  have hamt : ¬ T ≤ 0 := not_le.mpr hTpos
  unfold Hiring.processPayment at hstep
  rw [if_neg hamt] at hstep
  have hh := Option.some.inj hstep
  refine handleCancellation_full_refund h₁ now T ?_ hTpos hTr ?_
  · rw [← hh, hpay]
    simp [completedSum_cons, completedSum]
  · rw [← hh]
    simpa using hpol

/-- Witness for claim C9: paying the full total 100 on the concrete fresh
hiring under the Flexible policy 10 days ahead, then cancelling, zeroes the
Completed sum and marks the ledger Refunded. -/
theorem payment_then_full_refund_roundtrip_witness :
    completedSum ((Hiring.handleCancellation paidHiring 0).1.payments) = 0
      ∧ (Hiring.handleCancellation paidHiring 0).1.paymentStatus = "Refunded" :=
  payment_then_full_refund_roundtrip freshHiring 0 100 rfl rfl (by norm_num)
    (by norm_num [round2, jsRound])
    (by norm_num [freshHiring, hiringRefundPercentage,
      show ("Flexible" : String) ≠ "Standard" from by decide])
    paidHiring
    (by norm_num [Hiring.processPayment, freshHiring, paidHiring, completedSum])

/-- claim C10: because the deposit defaults to 0, processing any positive
completed payment on a Pending hiring whose ledger has a non-negative
Completed sum (as every ledger reachable in the Pending state has) always
auto-transitions the hiring to Confirmed, however small the amount is
relative to the total cost. -/
theorem pending_hiring_confirmed_by_any_payment (h : Hiring) (amount : ℚ)
    (hdep : h.deposit = 0) (hst : h.status = HiringStatus.pending)
    (hamt : 0 < amount) (hledger : 0 ≤ completedSum h.payments) :
    ∃ h₁, Hiring.processPayment h amount = some h₁
      ∧ h₁.status = HiringStatus.confirmed := by
  unfold Hiring.processPayment
  rw [if_neg (not_le.mpr hamt)]
  refine ⟨_, rfl, ?_⟩
  have hsum : completedSum (h.payments ++ [⟨amount, PaymentEntryStatus.completed⟩])
      = completedSum h.payments + amount := by
    rw [completedSum_append_single]
    simp
  have hcond : h.deposit ≤ completedSum (h.payments ++ [⟨amount, PaymentEntryStatus.completed⟩])
      ∧ h.status = HiringStatus.pending := by
    refine ⟨?_, hst⟩
    rw [hdep, hsum]
    linarith
  simp only
  rw [if_pos hcond]

/-- Witness for claim C10: a payment of 1 on the concrete fresh hiring
(total cost 100, deposit 0) auto-confirms it. -/
theorem pending_hiring_confirmed_by_any_payment_witness :
    ∃ h₁, Hiring.processPayment freshHiring 1 = some h₁
      ∧ h₁.status = HiringStatus.confirmed :=
  pending_hiring_confirmed_by_any_payment freshHiring 1 rfl rfl (by norm_num)
    (by norm_num [freshHiring, completedSum])

/-- Witness for claim C8 (amended): at 30 hours the booking refund fraction
is actor-independent, and the admin cancellation of the concrete fresh
hiring returns exactly the outcome the owner cancellation returns (a zero
refund entry is not written since nothing was paid; the percentage is 1). -/
theorem refund_percentage_actor_independent_witness :
    cancelBookingRefundPercentage 30 true "Paid" = cancelBookingRefundPercentage 30 false "Paid"
      ∧ HiringController.cancelHiring freshHiring 0 true
        = some ({ freshHiring with status := HiringStatus.cancelled }, ⟨0, 1⟩) :=
  ⟨refund_percentage_actor_independent_above24.1 30 "Paid" (by norm_num),
    refund_percentage_actor_independent_above24.2 freshHiring 0 _
      (by
        norm_num [HiringController.cancelHiring, Hiring.handleCancellation,
          hiringRefundPercentage, freshHiring, completedSum, round2, jsRound,
          show ("Flexible" : String) ≠ "Standard" from by decide]
        decide)⟩
